import Mathlib

/-!
Verification development for the `mascraper` repository.

This file gives a shallow embedding, in Lean 4, of the core data
transformations of the repository (`src/main.py`, `src/main2.py`,
`src/main3.py`): the financial-text normalizer `DataConverter`, the
deduplicating ingestion step `format_deal_data` of each of the three
drivers, the anti-bot block detector `AntiBlockingManager`, the
block-recovery control flow of
`fetch_features_with_blocking_protection`, and the network retry
decorator `retry_on_failure` around `fetch_html`.

Embedding conventions:
* Python `str` is Lean `String`; Python's `in` substring test is
  `strContains`; `str.lower` is modelled per-character on ASCII (the
  configured indicator strings are all ASCII).
* Python `float` is modelled exactly as a decimal rational `Dec`
  (an integer mantissa over a power of ten).  Every numeric token the
  code feeds to `float` is produced by the regex `[\d\.]+`, so it
  consists of digits and dots only and its value, as well as every
  derived value (unit multiples, divisions by 100), is such a decimal;
  on the in-range magnitudes occurring in financial text the binary
  double and the exact decimal agree.  IEEE-754 overflow is modelled
  by `PyFloat`: a `Dec` whose magnitude reaches the double overflow
  boundary `2^1024 - 2^970` (the first value that rounds beyond the
  largest finite double) becomes `inf`, as in CPython, where
  `float('9' * 400)` returns `inf` silently and arithmetic on floats
  overflows to `inf` without raising.
* The regex `\d` is modelled as the ASCII digits `0-9` (the code
  first translates full-width digits to ASCII).
* Python exceptions are modelled with `Except`/`Option`: `float`'s
  `ValueError` on a malformed token is caught by the `try/except` in
  the source, but the `int(value)` conversions sit outside it and
  raise `OverflowError` on an infinite value; `parse_financial_valueE`
  and `format_financial_textE` make this exception flow explicit,
  while the plain `parse_financial_value`/`format_financial_text`
  ignore overflow (they are the code's value semantics on every input
  where no exception escapes).
* `hashlib.md5(...).hexdigest()` is implemented bit-for-bit (RFC 1321)
  over the UTF-8 bytes of the input string; `md5hex12` takes the first
  12 hex characters exactly as `hexdigest()[:12]` does.
* A Python `set` of strings is modelled as a `List String` with
  membership; `datetime.now()` is passed in as an opaque
  `extraction_time` argument; `logging` calls are ignored (no data
  flow).
-/

namespace MAScraper

/-- Python's `needle in hay` substring test on code points. -/
def strContains (hay needle : String) : Bool :=
  hay.toList.tails.any (fun t => needle.toList.isPrefixOf t)

/-- ASCII-only lower casing of one character, the fragment of Python
`str.lower` exercised by the configured (ASCII) indicator strings. -/
def charLower (c : Char) : Char :=
  if 'A' ≤ c ∧ c ≤ 'Z' then Char.ofNat (c.toNat + 32) else c

/-- `str.lower` (ASCII fragment, identity on other code points). -/
def strLower (s : String) : String :=
  String.mk (s.toList.map charLower)

/-- `text.translate(str.maketrans('０１２３４５６７８９', '0123456789'))`:
full-width digit to ASCII digit, identity elsewhere. -/
def zenToHanDigit (c : Char) : Char :=
  if c = '０' then '0' else if c = '１' then '1'
  else if c = '２' then '2' else if c = '３' then '3'
  else if c = '４' then '4' else if c = '５' then '5'
  else if c = '６' then '6' else if c = '７' then '7'
  else if c = '８' then '8' else if c = '９' then '9' else c

def translateDigits (s : String) : String :=
  String.mk (s.toList.map zenToHanDigit)

/-- `text.replace(',', '')` (ASCII comma only, as in the source). -/
def removeCommas (s : String) : String :=
  String.mk (s.toList.filter (fun c => c ≠ ','))

/-- `re.split` on a single-character class: split the character list at
every separator character, keeping empty segments (Python semantics:
`re.split(r'[〜～-]', '') == ['']`, a trailing separator yields a final
empty segment).  The accumulator carries the current segment in
reverse, so evaluation is iterative along separator-free runs. -/
def splitOnPredAux (p : Char → Bool) (acc : List Char) :
    List Char → List (List Char)
  | [] => [acc.reverse]
  | c :: cs =>
    if p c then acc.reverse :: splitOnPredAux p [] cs
    else splitOnPredAux p (c :: acc) cs

def splitOnPred (p : Char → Bool) (cs : List Char) : List (List Char) :=
  splitOnPredAux p [] cs

/-- The range-separator class `[〜～-]` of
`DataConverter.parse_financial_value` (src/main.py line 111). -/
def isRangeSep (c : Char) : Bool :=
  c = '〜' ∨ c = '～' ∨ c = '-'

/-- Python decimal-digit test for the regex class `\d`: ASCII digits
and the full-width digits the code's own translation table knows
(other Unicode decimal digits do not occur in this data). -/
def isPyDigit (c : Char) : Bool :=
  (zenToHanDigit c).isDigit

/-- character class `[\d\.]`. -/
def isNumDot (c : Char) : Bool :=
  isPyDigit c ∨ c = '.'

/-- `re.search(r'([\d\.]+)', s)`: the first maximal run of digits and
dots, or `none` when no such character occurs. -/
def firstNumToken (cs : List Char) : Option (List Char) :=
  match cs.dropWhile (fun c => !isNumDot c) with
  | [] => none
  | c :: rest => some ((c :: rest).takeWhile isNumDot)

/-- Numeric value of a digit run (full-width digits, which Python
`float` accepts, are translated first). -/
def natOfDigits (cs : List Char) : ℕ :=
  cs.foldl (fun n c => 10 * n + ((zenToHanDigit c).toNat - 48)) 0

/-- Exact decimal rational: the value `m / 10 ^ e`.  This represents
every float value the normalizer manipulates (digit-and-dot tokens,
their unit multiples, and divisions by powers of ten) exactly. -/
structure Dec where
  m : ℤ
  e : ℕ
  deriving DecidableEq, Repr

namespace Dec

/-- Multiplication by an integer constant (the unit multipliers). -/
def mulInt (d : Dec) (k : ℤ) : Dec := ⟨d.m * k, d.e⟩

/-- Division by `10 ^ k` (the `value / 100` branch). -/
def divPow10 (d : Dec) (k : ℕ) : Dec := ⟨d.m, d.e + k⟩

/-- Python `int()`: truncation toward zero. -/
def toIntTrunc (d : Dec) : ℤ :=
  if d.m < 0 then -(((-d.m).toNat / 10 ^ d.e : ℕ) : ℤ)
  else ((d.m.toNat / 10 ^ d.e : ℕ) : ℤ)

/-- The rational value represented. -/
def val (d : Dec) : ℚ := (d.m : ℚ) / (10 : ℚ) ^ d.e

/-- `d ≤ k` for an integer `k` (exact comparison of `m / 10^e` with
`k`). -/
def leInt (d : Dec) (k : ℤ) : Bool := d.m ≤ k * 10 ^ d.e

/-- `k ≤ d` for an integer `k`. -/
def geInt (d : Dec) (k : ℤ) : Bool := k * 10 ^ d.e ≤ d.m

/-- `float == int(float)`: the value is a whole number. -/
def isWhole (d : Dec) : Bool := d.m % (10 ^ d.e : ℤ) = 0

end Dec

/-- Python `float` on a token matched by `[\d\.]+`: at most one dot and
at least one digit are required, otherwise `ValueError`.  The value
`digits [. digits]` equals `natOfDigits (ip ++ fp) / 10 ^ fp.length`. -/
def pyFloatOfToken (cs : List Char) : Option Dec :=
  if cs.count '.' > 1 then none
  else if !cs.any isPyDigit then none
  else
    let ip := cs.takeWhile isPyDigit
    let fp := (cs.dropWhile isPyDigit).drop 1
    some ⟨(natOfDigits (ip ++ fp) : ℤ), fp.length⟩

/-- Python `int()` on a (here always finite, exactly decimal) float:
truncation toward zero. -/
def pyInt (d : Dec) : ℤ := d.toIntTrunc

/-- The denylist of `DataConverter.parse_financial_value` and
`DataConverter.format_financial_text` (src/main.py lines 108, 129). -/
def sentinelKeywords : List String :=
  ["非公開", "応相談", "赤字", "N/A", "希望なし", "黒字なし", "損益なし"]

/-- `not text or any(keyword in text for keyword in [...])`. -/
def isSentinelText (text : String) : Bool :=
  text = "" || sentinelKeywords.any (fun kw => strContains text kw)

/-- The unit-multiplier loop of `parse_financial_value`
(src/main.py lines 119-123): dictionary order 億, 千万, 百万, 万 with
`break` on the first unit contained in the (translated) text. -/
def applyMultiplier (text : String) (v : Dec) : Dec :=
  if strContains text "億" then v.mulInt 100000000
  else if strContains text "千万" then v.mulInt 10000000
  else if strContains text "百万" then v.mulInt 1000000
  else if strContains text "万" then v.mulInt 10000
  else v

namespace DataConverter

/-- `DataConverter.parse_financial_value` (src/main.py lines 105-124).
Returns `0` for empty/denylisted text; otherwise translates full-width
digits, strips commas, takes the last segment of a split on `[〜～-]`,
extracts the first `[\d\.]+` token from it, converts with `float`
(`0` on `ValueError`), scales by the first unit found in the whole
translated text, and truncates with `int()`. -/
def parse_financial_value (text : String) : ℤ :=
  if isSentinelText text then 0
  else
    let text' := removeCommas (translateDigits text)
    let target := (splitOnPred isRangeSep text'.toList).getLastD []
    match firstNumToken target with
    | none => 0
    | some tok =>
      match pyFloatOfToken tok with
      | none => 0
      | some v => pyInt (applyMultiplier text' v)

end DataConverter

/-- The per-field threshold test of `format_deal_data`
(src/main.py line 2055): a field passes its threshold exactly when
`parse_financial_value` is not below it. -/
def qualifies (text : String) (threshold : ℤ) : Bool :=
  !(DataConverter.parse_financial_value text < threshold)

example : DataConverter.parse_financial_value "5,000万円〜1億円" = 100000000 := by decide
example : DataConverter.parse_financial_value "5,000万円" = 50000000 := by decide
example : DataConverter.parse_financial_value "1億円" = 100000000 := by decide
example : DataConverter.parse_financial_value "応相談" = 0 := by decide
example : DataConverter.parse_financial_value "▲1,000万円" = 10000000 := by decide
example : DataConverter.parse_financial_value "-1,000万円" = 10000000 := by decide

/-! ### Display formatting (`DataConverter.format_financial_text`,
src/main.py lines 126-165, and the main3 `SpeedMADataConverter`). -/

/-- Python `str.strip()` whitespace (the code points occurring in this
data: ASCII whitespace and the ideographic space). -/
def isPySpace (c : Char) : Bool :=
  c = ' ' ∨ c = '\t' ∨ c = '\n' ∨ c = '\x0d' ∨ c = '\x0b' ∨
    c = '\x0c' ∨ c = '　'

/-- Python `s.strip()`. -/
def pyStrip (s : String) : String :=
  String.mk (((s.toList.dropWhile isPySpace).reverse.dropWhile
    isPySpace).reverse)

/-- Build the comma-grouped digit string from reversed digits; `k`
counts digits already emitted. -/
def commasRev (k : ℕ) : List Char → List Char
  | [] => []
  | c :: cs =>
    if k ≠ 0 ∧ k % 3 = 0 then ',' :: c :: commasRev (k + 1) cs
    else c :: commasRev (k + 1) cs

/-- Python `f-string` formatting of an integer with the `,` option
(thousands separators). -/
def intCommas (n : ℤ) : String :=
  (if n < 0 then "-" else "") ++
    String.mk ((commasRev 0 (toString n.natAbs).toList.reverse).reverse)

/-- Round-half-even of the fraction `a / b` (`b > 0`). -/
def roundHalfEven (a b : ℕ) : ℕ :=
  let q := a / b
  let r := a % b
  if 2 * r < b then q
  else if 2 * r > b then q + 1
  else if q % 2 = 0 then q else q + 1

/-- Python `f-string` `:.1f` formatting of a (nonnegative, exactly
decimal) float: round-half-even to one decimal place.  (CPython rounds
the binary double half-even; on the exact decimals reached here we
model decimal half-even rounding.  No thousands separators: the `:.1f`
spec has no `,` option.) -/
def fmt1f (d : Dec) : String :=
  let n := roundHalfEven (d.m.toNat * 10) (10 ^ d.e)
  toString (n / 10) ++ "." ++ toString (n % 10)

/-- The common tail of `_to_million_format` / `_convert_to_million`:
given the computed `million_value` and the original text part, emit
`f"{int(v):,}百万円"` for a whole value `≥ 1`, `f"{v:.1f}百万円"` for a
fractional value `≥ 1`, and the original part otherwise. -/
def millionOut (mv : Dec) (part : String) : String :=
  if mv.geInt 1 then
    if mv.isWhole then intCommas (pyInt mv) ++ "百万円"
    else fmt1f mv ++ "百万円"
  else part

namespace DataConverter

/-- The inner `_to_million_format` of
`DataConverter.format_financial_text` (src/main.py lines 132-157).
Note: the unit tests (`'億' in text_part` etc.) run on the original
part, while the numeric token is taken from the comma-stripped,
stripped copy; the `'百万円'` branch returns the part unchanged. -/
def toMillionFormat (part : String) : String :=
  let clean := pyStrip (removeCommas part)
  match firstNumToken clean.toList with
  | none => part
  | some tok =>
    match pyFloatOfToken tok with
    | none => part
    | some value =>
      if strContains part "億" then millionOut (value.mulInt 100) part
      else if strContains part "千万" then millionOut (value.mulInt 10) part
      else if strContains part "百万円" then part
      else if strContains part "万" && !strContains part "百万" then
        millionOut (value.divPow10 2) part
      else part

/-- `DataConverter.format_financial_text` (src/main.py lines 126-165):
pass through empty/denylisted text (`"N/A"` for empty); choose `～` as
separator when present, else `〜`; if the separator occurs and splits
the text in exactly two parts, format each stripped part and join with
`～`; otherwise format the whole text. -/
def format_financial_text (text : String) : String :=
  if isSentinelText text then (if text = "" then "N/A" else text)
  else
    let sep : Char := if strContains text "～" then '～' else '〜'
    if strContains text (String.mk [sep]) then
      let parts := (splitOnPred (fun c => c = sep) text.toList).map String.mk
      if parts.length = 2 then
        String.intercalate "～"
          (parts.map (fun p => toMillionFormat (pyStrip p)))
      else toMillionFormat text
    else toMillionFormat text

/-- `DataConverter.convert_strike_revenue_to_million`
(src/main.py lines 167-180). -/
def convert_strike_revenue_to_million (revenue_text : String) : String :=
  if revenue_text = "" then "-"
  else if revenue_text = "5～10億円" then "500～1,000百万円"
  else if revenue_text = "10～50億円" then "1,000～5,000百万円"
  else if revenue_text = "50～100億円" then "5,000～10,000百万円"
  else if revenue_text = "100億円超" then "10,000百万円超"
  else revenue_text

end DataConverter

example : DataConverter.format_financial_text "5,000万円〜1億円" =
    "50百万円～100百万円" := by decide
example : DataConverter.format_financial_text "応相談" = "応相談" := by decide
example : DataConverter.format_financial_text "約820百万円" = "約820百万円" := by
  decide

namespace SpeedMADataConverter

/-- Denylist of `SpeedMADataConverter.parse_financial_value`
(src/main3.py line 83): includes the masked placeholder `**`. -/
def sentinels : List String :=
  ["非公開", "応相談", "赤字", "N/A", "希望なし", "**"]

/-- Range separators of the main3 converter
(src/main3.py lines 90 and 163), in loop order. -/
def rangeSeps : List Char := ['〜', '～', '-', '?']

/-- The range-lowering step of
`SpeedMADataConverter.parse_financial_value` (src/main3.py lines
89-96): if any separator occurs, split on the first one (in loop
order) and keep the stripped first part. -/
def firstSegment (text : String) : String :=
  match rangeSeps.find? (fun sep => strContains text (String.mk [sep])) with
  | some sep =>
    pyStrip ((((splitOnPred (fun c => c = sep) text.toList).map
      String.mk)).headD text)
  | none => text

/-- The unit-multiplier loop of the main3 converter (src/main3.py
lines 109-123), dictionary order 億円, 億, 千万円, 千万, 百万円, 百万,
万円, 万; note it tests the (possibly range-lowered) segment, not the
whole text. -/
def applyMultiplier (t : String) (v : Dec) : Dec :=
  if strContains t "億円" then v.mulInt 100000000
  else if strContains t "億" then v.mulInt 100000000
  else if strContains t "千万円" then v.mulInt 10000000
  else if strContains t "千万" then v.mulInt 10000000
  else if strContains t "百万円" then v.mulInt 1000000
  else if strContains t "百万" then v.mulInt 1000000
  else if strContains t "万円" then v.mulInt 10000
  else if strContains t "万" then v.mulInt 10000
  else v

/-- `SpeedMADataConverter.parse_financial_value`
(src/main3.py lines 80-125): like the main.py parser but with the
`**` sentinel, the first (lower) range segment, and its own unit
table. -/
def parse_financial_value (text : String) : ℤ :=
  if text = "" || sentinels.any (fun kw => strContains text kw) then 0
  else
    let text' := removeCommas (translateDigits text)
    let seg := firstSegment text'
    match firstNumToken seg.toList with
    | none => 0
    | some tok =>
      match pyFloatOfToken tok with
      | none => 0
      | some v => pyInt (applyMultiplier seg v)

/-- The inner `_convert_to_million` of
`SpeedMADataConverter.format_to_million_yen` (src/main3.py lines
133-160); unlike the main.py version, a bare `百万` keeps the value. -/
def convertToMillion (part : String) : String :=
  let clean := pyStrip (removeCommas part)
  match firstNumToken clean.toList with
  | none => part
  | some tok =>
    match pyFloatOfToken tok with
    | none => part
    | some value =>
      if strContains part "億" then millionOut (value.mulInt 100) part
      else if strContains part "千万" then millionOut (value.mulInt 10) part
      else if strContains part "百万" then millionOut value part
      else if strContains part "万" && !strContains part "千万" &&
          !strContains part "百万" then
        millionOut (value.divPow10 2) part
      else part

/-- `SpeedMADataConverter.format_to_million_yen` (src/main3.py lines
127-173): sentinel pass-through, then the first separator (loop with
`break`) splitting the text in exactly two parts formats both, else
the whole text is formatted. -/
def format_to_million_yen (text : String) : String :=
  if text = "" || sentinels.any (fun kw => strContains text kw) then
    (if text = "" then "N/A" else text)
  else
    match rangeSeps.find? (fun sep => strContains text (String.mk [sep])) with
    | some sep =>
      match (splitOnPred (fun c => c = sep) text.toList).map String.mk with
      | [p1, p2] =>
        convertToMillion (pyStrip p1) ++ "～" ++ convertToMillion (pyStrip p2)
      | _ => convertToMillion text
    | none => convertToMillion text

end SpeedMADataConverter

/-! ### MD5 (RFC 1321), as used by `hashlib.md5(...).hexdigest()[:12]`
for `unique_id` generation in `format_deal_data`.  The implementation
works on lists of byte values (`ℕ < 256`) with 32-bit words kept as
`ℕ` reduced modulo `2 ^ 32`. -/

/-- UTF-8 encoding of one scalar value, as `str.encode()` produces. -/
def utf8Char (c : Char) : List ℕ :=
  let n := c.toNat
  if n < 128 then [n]
  else if n < 2048 then [192 + n / 64, 128 + n % 64]
  else if n < 65536 then
    [224 + n / 4096, 128 + (n / 64) % 64, 128 + n % 64]
  else
    [240 + n / 262144, 128 + (n / 4096) % 64, 128 + (n / 64) % 64,
     128 + n % 64]

/-- `s.encode()`: UTF-8 bytes of a string. -/
def utf8Bytes (s : String) : List ℕ :=
  (s.toList.map utf8Char).flatten

def kTable : List ℕ := [
  3614090360, 3905402710, 606105819, 3250441966,
  4118548399, 1200080426, 2821735955, 4249261313,
  1770035416, 2336552879, 4294925233, 2304563134,
  1804603682, 4254626195, 2792965006, 1236535329,
  4129170786, 3225465664, 643717713, 3921069994,
  3593408605, 38016083, 3634488961, 3889429448,
  568446438, 3275163606, 4107603335, 1163531501,
  2850285829, 4243563512, 1735328473, 2368359562,
  4294588738, 2272392833, 1839030562, 4259657740,
  2763975236, 1272893353, 4139469664, 3200236656,
  681279174, 3936430074, 3572445317, 76029189,
  3654602809, 3873151461, 530742520, 3299628645,
  4096336452, 1126891415, 2878612391, 4237533241,
  1700485571, 2399980690, 4293915773, 2240044497,
  1873313359, 4264355552, 2734768916, 1309151649,
  4149444226, 3174756917, 718787259, 3951481745]

def sTable : List ℕ := [
  7, 12, 17, 22, 7, 12, 17, 22, 7, 12, 17, 22, 7, 12, 17, 22,
  5, 9, 14, 20, 5, 9, 14, 20, 5, 9, 14, 20, 5, 9, 14, 20,
  4, 11, 16, 23, 4, 11, 16, 23, 4, 11, 16, 23, 4, 11, 16, 23,
  6, 10, 15, 21, 6, 10, 15, 21, 6, 10, 15, 21, 6, 10, 15, 21]

/-- Bitwise NOT on a 32-bit word. -/
def wnot (a : ℕ) : ℕ := 4294967295 - a % 4294967296

/-- 32-bit left rotation. -/
def rotl32 (x s : ℕ) : ℕ :=
  ((x % 4294967296) * 2 ^ s + (x % 4294967296) / 2 ^ (32 - s)) %
    4294967296

structure MD5State where
  a : ℕ
  b : ℕ
  c : ℕ
  d : ℕ
  deriving DecidableEq, Repr

def md5Init : MD5State :=
  ⟨1732584193, 4023233417, 2562383102, 271733878⟩

/-- One of the 64 MD5 round operations on state `(a,b,c,d)` with
message-word accessor `M`. -/
def md5Step (M : ℕ → ℕ) (st : MD5State) (i : ℕ) : MD5State :=
  let f :=
    if i < 16 then (st.b &&& st.c) ||| (wnot st.b &&& st.d)
    else if i < 32 then (st.d &&& st.b) ||| (wnot st.d &&& st.c)
    else if i < 48 then st.b ^^^ st.c ^^^ st.d
    else st.c ^^^ (st.b ||| wnot st.d)
  let g :=
    if i < 16 then i
    else if i < 32 then (5 * i + 1) % 16
    else if i < 48 then (3 * i + 5) % 16
    else (7 * i) % 16
  let x := (f + st.a + kTable.getD i 0 + M g) % 4294967296
  ⟨st.d, (st.b + rotl32 x (sTable.getD i 0)) % 4294967296, st.b, st.c⟩

/-- Four little-endian bytes to one 32-bit word. -/
def bytesToWords : List ℕ → List ℕ
  | b0 :: b1 :: b2 :: b3 :: rest =>
    (b0 + 256 * b1 + 65536 * b2 + 16777216 * b3) :: bytesToWords rest
  | _ => []

/-- Process one 64-byte block. -/
def md5Chunk (st : MD5State) (block : List ℕ) : MD5State :=
  let ws := bytesToWords block
  let r := (List.range 64).foldl (md5Step (fun g => ws.getD g 0)) st
  ⟨(st.a + r.a) % 4294967296, (st.b + r.b) % 4294967296,
   (st.c + r.c) % 4294967296, (st.d + r.d) % 4294967296⟩

/-- Fold over the padded byte stream, grouping it into 64-byte
blocks. -/
def md5Blocks (st : MD5State) (acc : List ℕ) : List ℕ → MD5State
  | [] => st
  | b :: rest =>
    let acc' := acc ++ [b]
    if acc'.length = 64 then md5Blocks (md5Chunk st acc') [] rest
    else md5Blocks st acc' rest

/-- `n` as `k` little-endian bytes. -/
def leBytes : ℕ → ℕ → List ℕ
  | 0, _ => []
  | k + 1, n => (n % 256) :: leBytes k (n / 256)

/-- MD5 padding: `0x80`, zeros to 56 mod 64, then the 64-bit
little-endian bit length. -/
def md5Pad (msg : List ℕ) : List ℕ :=
  let z := (119 - msg.length % 64) % 64
  msg ++ [128] ++ List.replicate z 0 ++
    leBytes 8 ((8 * msg.length) % 18446744073709551616)

/-- MD5 digest (16 bytes) of a byte list. -/
def md5Digest (msg : List ℕ) : List ℕ :=
  let r := md5Blocks md5Init [] (md5Pad msg)
  leBytes 4 r.a ++ leBytes 4 r.b ++ leBytes 4 r.c ++ leBytes 4 r.d

def hexDigitChar (n : ℕ) : Char :=
  if n < 10 then Char.ofNat (48 + n) else Char.ofNat (87 + n)

/-- `hashlib.md5(s.encode()).hexdigest()`. -/
def md5hexdigest (s : String) : String :=
  String.mk (((md5Digest (utf8Bytes s)).map
    (fun b => [hexDigitChar (b / 16), hexDigitChar (b % 16)])).flatten)

/-- `hashlib.md5(s.encode()).hexdigest()[:12]`, the `unique_id`
hash of `format_deal_data`. -/
def md5hex12 (s : String) : String :=
  String.mk ((md5hexdigest s).toList.take 12)

/-! ### Records and the ingestion step `format_deal_data` of the three
drivers (src/main.py lines 2034-2086, src/main2.py lines 2889-2957,
src/main3.py lines 648-706). -/

/-- `RawDealData` (src/main.py lines 77-87; identical in main2/main3).
Unset optional fields are the empty string. -/
structure RawDealData where
  site_name : String
  title : String
  deal_id : String
  link : String
  revenue_text : String
  profit_text : String
  location_text : String
  price_text : String
  features_text : String
  deriving DecidableEq, Repr

/-- `FormattedDealData` (src/main.py lines 89-101; identical in
main2/main3). -/
structure FormattedDealData where
  extraction_time : String
  site_name : String
  deal_id : String
  title : String
  features : String
  location : String
  revenue : String
  profit : String
  price : String
  link : String
  unique_id : String
  deriving DecidableEq, Repr

/-- The sites exempted from the financial check in main.py
`format_deal_data` (src/main.py line 2048). -/
def threshold_exempt_sites : List String :=
  ["M&A総合研究所", "M&Aキャピタルパートナーズ", "ストライク"]

namespace Main

/-- The `unique_id` of main.py `format_deal_data`
(src/main.py line 2041): always the hash of
`f"{site_name}_{deal_id}"`; the link is not consulted. -/
def unique_id (raw_deal : RawDealData) : String :=
  md5hex12 (raw_deal.site_name ++ "_" ++ raw_deal.deal_id)

/-- `format_deal_data` of src/main.py (lines 2034-2086).  The Python
set `existing_ids` is a list with membership; it is NOT grown inside
the loop (the source never calls `existing_ids.add`).  `min_revenue`
and `min_profit` are the `CONFIG` values (defaults 300000000 and
30000000, line 2052-2053); `extraction_time` stands for
`datetime.datetime.now().strftime(...)`. -/
def format_deal_data (min_revenue min_profit : ℤ) (extraction_time : String)
    (raw_deals : List RawDealData) (existing_ids : List String) :
    List FormattedDealData :=
  match raw_deals with
  | [] => []
  | raw_deal :: rest =>
    let uid := unique_id raw_deal
    if existing_ids.contains uid then
      format_deal_data min_revenue min_profit extraction_time rest existing_ids
    else if !threshold_exempt_sites.contains raw_deal.site_name &&
        (DataConverter.parse_financial_value raw_deal.revenue_text <
            min_revenue ||
          DataConverter.parse_financial_value raw_deal.profit_text <
            min_profit) then
      format_deal_data min_revenue min_profit extraction_time rest existing_ids
    else
      { extraction_time := extraction_time
        site_name := raw_deal.site_name
        deal_id := raw_deal.deal_id
        title := raw_deal.title
        location := if raw_deal.location_text = "" then "-"
          else raw_deal.location_text
        revenue := if raw_deal.site_name = "ストライク" then
            DataConverter.convert_strike_revenue_to_million
              raw_deal.revenue_text
          else DataConverter.format_financial_text raw_deal.revenue_text
        profit := DataConverter.format_financial_text raw_deal.profit_text
        price := DataConverter.format_financial_text raw_deal.price_text
        features := if raw_deal.features_text = "" then "-"
          else raw_deal.features_text
        link := raw_deal.link
        unique_id := uid } ::
        format_deal_data min_revenue min_profit extraction_time rest
          existing_ids

end Main

namespace Main2

/-- The `unique_id` of main2.py `format_deal_data`
(src/main2.py lines 2896-2903): hash of `f"{site_name}_{link}"` when
the link is truthy (non-empty), else of `f"{site_name}_{deal_id}"`. -/
def unique_id (raw_deal : RawDealData) : String :=
  if raw_deal.link ≠ "" then
    md5hex12 (raw_deal.site_name ++ "_" ++ raw_deal.link)
  else
    md5hex12 (raw_deal.site_name ++ "_" ++ raw_deal.deal_id)

/-- `format_deal_data` of src/main2.py (lines 2889-2957).  After the
duplicate check the id is added to the set
(`existing_ids.add(unique_id)`, line 2915) before the next record is
processed.  The site-specific display conversion of revenue, profit
and price (lines 2917-2934: a branch on `site_name` choosing among
`DataConverter` display converters) is passed in as `formatFields`;
no claim depends on those display strings. -/
def format_deal_data (formatFields : RawDealData → String × String × String)
    (extraction_time : String) (raw_deals : List RawDealData)
    (existing_ids : List String) : List FormattedDealData :=
  match raw_deals with
  | [] => []
  | raw_deal :: rest =>
    let uid := unique_id raw_deal
    if existing_ids.contains uid then
      format_deal_data formatFields extraction_time rest existing_ids
    else
      { extraction_time := extraction_time
        site_name := raw_deal.site_name
        deal_id := raw_deal.deal_id
        title := raw_deal.title
        location := if raw_deal.location_text = "" then "-"
          else raw_deal.location_text
        revenue := (formatFields raw_deal).1
        profit := (formatFields raw_deal).2.1
        price := (formatFields raw_deal).2.2
        features := if raw_deal.features_text = "" then "-"
          else raw_deal.features_text
        link := raw_deal.link
        unique_id := uid } ::
        format_deal_data formatFields extraction_time rest
          (uid :: existing_ids)

end Main2

namespace Main3

/-- `format_deal_data` of src/main3.py (lines 648-706): the
`unique_id` is always `md5(f"{site_name}_{deal_id}")[:12]`; the
financial check only rejects values that are positive and below the
threshold (`value > 0 and value < min`), so the `0` sentinel passes;
the set is not grown inside the loop. -/
def format_deal_data (min_revenue min_profit : ℤ) (extraction_time : String)
    (raw_deals : List RawDealData) (existing_ids : List String) :
    List FormattedDealData :=
  match raw_deals with
  | [] => []
  | raw_deal :: rest =>
    let uid := Main.unique_id raw_deal
    if existing_ids.contains uid then
      format_deal_data min_revenue min_profit extraction_time rest existing_ids
    else
      let revenue_value :=
        SpeedMADataConverter.parse_financial_value raw_deal.revenue_text
      let profit_value :=
        SpeedMADataConverter.parse_financial_value raw_deal.profit_text
      if revenue_value > 0 ∧ revenue_value < min_revenue then
        format_deal_data min_revenue min_profit extraction_time rest
          existing_ids
      else if profit_value > 0 ∧ profit_value < min_profit then
        format_deal_data min_revenue min_profit extraction_time rest
          existing_ids
      else
        { extraction_time := extraction_time
          site_name := raw_deal.site_name
          deal_id := raw_deal.deal_id
          title := raw_deal.title
          location := if raw_deal.location_text = "" then "-"
            else raw_deal.location_text
          revenue := SpeedMADataConverter.format_to_million_yen
            raw_deal.revenue_text
          profit := SpeedMADataConverter.format_to_million_yen
            raw_deal.profit_text
          price := SpeedMADataConverter.format_to_million_yen
            raw_deal.price_text
          features := if raw_deal.features_text = "" then "-"
            else raw_deal.features_text
          link := raw_deal.link
          unique_id := uid } ::
          format_deal_data min_revenue min_profit extraction_time rest
            existing_ids

end Main3

/-! ### `AntiBlockingManager` (src/main.py lines 182-227) and the
block-protected detail fetch (src/main.py lines 306-375). -/

namespace AntiBlockingManager

/-- The configured block indicators (src/main.py lines 203-210). -/
def blocked_indicators : List String :=
  ["403 ERROR", "The request could not be satisfied", "Request blocked",
   "cloudfront", "Access Denied", "Forbidden"]

/-- `AntiBlockingManager.is_blocked_response`
(src/main.py lines 198-227).  `titleOf` abstracts
`BeautifulSoup(html, 'lxml').find('title').get_text()` (`none` when
the document has no title element): the HTML parser itself is an
external library, so the extracted title is an oracle parameter. -/
def is_blocked_response (titleOf : String → Option String)
    (html_content : String) : Bool :=
  if html_content = "" then false
  else if blocked_indicators.any
      (fun ind => strContains (strLower html_content) (strLower ind)) then
    true
  else
    match titleOf html_content with
    | some t =>
      strContains (strLower t) "error" || strContains (strLower t) "blocked"
        || strContains (strLower t) "denied"
    | none => false

end AntiBlockingManager

namespace DetailPageScraper

/-- One call of
`DetailPageScraper.fetch_features_with_blocking_protection`
(src/main.py lines 306-375), restricted to its block-handling control
flow.  `isBlocked` is the block test; `blocked_detected` is the
session flag of the shared `AntiBlockingManager`; the environment
supplies the page source of the initial `driver.get` (`first`) and of
the recovery `driver.get` (`retry`; consulted only when the recovery
fetch happens).  Result: the new flag, the html content handed to
feature extraction (`none` models the `"-"` failure return), and the
number of recovery fetches performed. -/
def fetchProtected (isBlocked : String → Bool) (blocked_detected : Bool)
    (first retry : String) : Bool × Option String × ℕ :=
  if isBlocked first then
    if !blocked_detected then
      if isBlocked retry then (true, none, 1)
      else (false, some retry, 1)
    else (blocked_detected, none, 0)
  else (blocked_detected, some first, 0)

/-- A sequence of protected detail fetches sharing one
`AntiBlockingManager` (as one source's crawl session does): threads
the `blocked_detected` flag through successive calls. -/
def runProtected (isBlocked : String → Bool) :
    Bool → List (String × String) → List (Option String × ℕ)
  | _, [] => []
  | st, (first, retry) :: rest =>
    let r := fetchProtected isBlocked st first retry
    (r.2.1, r.2.2) :: runProtected isBlocked r.1 rest

end DetailPageScraper

/-! ### `fetch_html` under `retry_on_failure`
(src/main.py lines 1954-1995). -/

/-- One network attempt outcome for `fetch_html`. -/
inductive FetchOutcome where
  | success (body : String)
  | timeout
  | httpStatus (code : ℕ)
  deriving DecidableEq, Repr

/-- The body of `fetch_html` (src/main.py lines 1975-1995) on one
outcome: a timeout is re-raised as `httpx.RequestError`
(`Except.error`, retryable); `raise_for_status` errors with code
`>= 500` likewise; other status errors return `None` without retry
(`.ok none`); success returns the body. -/
def fetch_html_once : FetchOutcome → Except Unit (Option String)
  | .success body => .ok (some body)
  | .timeout => .error ()
  | .httpStatus code => if 500 ≤ code then .error () else .ok none

/-- The `retry_on_failure` loop (src/main.py lines 1954-1973) applied
to `fetch_html`: `outcomes n` is the result of the `n`-th call
(0-based), `remaining` the attempts left of `max_retries`.  Returns
the final result (`Except.error` models the re-raised
`httpx.RequestError` after the last attempt), the number of attempts
made, and the list of sleeps `delay * (attempt + 1)` performed between
attempts. -/
def retryLoop (outcomes : ℕ → FetchOutcome) (delay : ℕ) :
    (attempt : ℕ) → (remaining : ℕ) →
      Except Unit (Option String) × ℕ × List ℕ
  | _, 0 => (.ok none, 0, [])
  | attempt, r + 1 =>
    match fetch_html_once (outcomes attempt) with
    | .ok v => (.ok v, 1, [])
    | .error e =>
      if r = 0 then (.error e, 1, [])
      else
        let res := retryLoop outcomes delay (attempt + 1) r
        (res.1, res.2.1 + 1, delay * (attempt + 1) :: res.2.2)

/-- `fetch_html` with its decorator: `max_retries` and `delay` are the
`CONFIG['scraping']` values (defaults 3 and 1). -/
def fetch_html (outcomes : ℕ → FetchOutcome) (max_retries delay : ℕ) :
    Except Unit (Option String) × ℕ × List ℕ :=
  retryLoop outcomes delay 0 max_retries

/-! ## Theorems -/

/-! ### C6: sign handling of the financial parser -/

section NonNeg

theorem pyFloatOfToken_m_nonneg {cs : List Char} {v : Dec}
    (h : pyFloatOfToken cs = some v) : 0 ≤ v.m := by
  unfold pyFloatOfToken at h
  split at h
  · exact absurd h (by simp)
  · split at h
    · exact absurd h (by simp)
    · simp only [Option.some.injEq] at h
      subst h
      exact Int.ofNat_nonneg _

theorem applyMultiplier_m_nonneg (t : String) {v : Dec} (h : 0 ≤ v.m) :
    0 ≤ (applyMultiplier t v).m := by
  unfold applyMultiplier Dec.mulInt
  split
  · exact mul_nonneg h (by norm_num)
  · split
    · exact mul_nonneg h (by norm_num)
    · split
      · exact mul_nonneg h (by norm_num)
      · split
        · exact mul_nonneg h (by norm_num)
        · exact h

theorem pyInt_nonneg {d : Dec} (h : 0 ≤ d.m) : 0 ≤ pyInt d := by
  unfold pyInt Dec.toIntTrunc
  rw [if_neg (by omega)]
  exact Int.ofNat_nonneg _

end NonNeg

/-- Claim C6 (corrected), counterexample: the claim says a text with a
negative marker (leading minus, or `▲` before the digits) parses to a
strictly negative magnitude and fails every positive threshold.  In
the code the numeric token regex `([\d\.]+)` captures no sign, `▲` is
skipped, and a leading `-` is consumed as a range separator, so
`"▲1,000万円"` and `"-1,000万円"` both parse to `+10000000` and
qualification at the positive threshold `10000000` succeeds. -/
theorem negative_marker_parses_positive :
    DataConverter.parse_financial_value "▲1,000万円" = 10000000 ∧
    DataConverter.parse_financial_value "-1,000万円" = 10000000 ∧
    qualifies "▲1,000万円" 10000000 = true ∧
    qualifies "-1,000万円" 10000000 = true := by
  refine ⟨by decide, by decide, by decide, by decide⟩

/-- Claim C6 (corrected, amended): `parse_financial_value` never
produces a negative magnitude: for every text the result is `≥ 0`
(negative markers are not captured by the numeric-token search, and
the only "negative" inputs recognized are the denylist keywords, which
yield the `0` sentinel).  Consequently a text with a negative marker
can still pass a positive threshold, as the counterexample shows. -/
theorem parse_financial_value_nonneg (text : String) :
    0 ≤ DataConverter.parse_financial_value text := by
  unfold DataConverter.parse_financial_value
  split
  · exact le_refl 0
  · dsimp only
    split
    · exact le_refl 0
    · split
      · exact le_refl 0
      · rename_i v _ _ hv
        exact pyInt_nonneg
          (applyMultiplier_m_nonneg _ (pyFloatOfToken_m_nonneg hv))

/-! ### C9: the end-to-end example "5,000万円〜1億円" -/

/-- Claim C9 (corrected), counterexample: the claim says the canonical
display of `"5,000万円〜1億円"` is exactly `"50～100百万円"`; the code
formats each range side with its own unit suffix, producing
`"50百万円～100百万円"`. -/
theorem canonical_display_example_ne :
    DataConverter.format_financial_text "5,000万円〜1億円" ≠
      "50～100百万円" := by decide

/-- Claim C9 (corrected, amended): for the input `"5,000万円〜1億円"`,
`parse_financial_value` resolves the range to its maximum
`100000000` (the two sides parse on their own to `50000000` and
`100000000`), qualification against the threshold `30000000` holds,
and the canonical display is `"50百万円～100百万円"`. -/
theorem end_to_end_example_range :
    DataConverter.parse_financial_value "5,000万円〜1億円" = 100000000 ∧
    DataConverter.parse_financial_value "5,000万円" = 50000000 ∧
    DataConverter.parse_financial_value "1億円" = 100000000 ∧
    qualifies "5,000万円〜1億円" 30000000 = true ∧
    DataConverter.format_financial_text "5,000万円〜1億円" =
      "50百万円～100百万円" := by
  refine ⟨by decide, by decide, by decide, by decide, by decide⟩

/-! ### C3: unresolved financial fields and the threshold check -/

/-- Claim C3 (corrected), counterexample: in main.py's
`format_deal_data` an unresolved (denylisted) revenue/profit text
parses to the `0` sentinel, which fails the check
`revenue_value < min_revenue or profit_value < min_profit` at the
configured positive defaults, so the record is rejected, not passed.
The site is not in the exempt list, and its `unique_id` is not
previously known. -/
theorem sentinel_record_rejected_main :
    Main.format_deal_data 300000000 30000000 "2026-10-12 00:00:00"
      [⟨"テストサイト", "案件", "1", "https://example.com/1", "非公開",
        "応相談", "", "", ""⟩] [] = [] := by
  rfl

/-- Claim C3 (corrected, amended): in the main3 pipeline an unresolved
(absent-sentinel, parsing to `0`) financial field never causes
rejection by itself: each field's check only rejects a value that is
positive and below its threshold (`value > 0 and value < min`), so
the `0` sentinel always passes its own check.  A record with an
unresolved revenue (resp. profit) is emitted whenever the other
field's check also passes (first two conjuncts), and is rejected
exactly when the other field is positive and below its threshold
(third conjunct) — the unresolved field itself is never the cause.
In main.py's pipeline (see the counterexample) the `0` sentinel fails
`value < min` for any positive threshold and the record is
rejected. -/
theorem sentinel_passes_main3 (minr minp : ℤ) (t : String)
    (r : RawDealData) (ids : List String)
    (hid : ids.contains (Main.unique_id r) = false) :
    (SpeedMADataConverter.parse_financial_value r.revenue_text = 0 →
      ¬(SpeedMADataConverter.parse_financial_value r.profit_text > 0 ∧
        SpeedMADataConverter.parse_financial_value r.profit_text < minp) →
      (Main3.format_deal_data minr minp t [r] ids).length = 1) ∧
    (SpeedMADataConverter.parse_financial_value r.profit_text = 0 →
      ¬(SpeedMADataConverter.parse_financial_value r.revenue_text > 0 ∧
        SpeedMADataConverter.parse_financial_value r.revenue_text < minr) →
      (Main3.format_deal_data minr minp t [r] ids).length = 1) ∧
    (SpeedMADataConverter.parse_financial_value r.revenue_text = 0 →
      SpeedMADataConverter.parse_financial_value r.profit_text > 0 →
      SpeedMADataConverter.parse_financial_value r.profit_text < minp →
      (Main3.format_deal_data minr minp t [r] ids).length = 0) := by
  refine ⟨?_, ?_, ?_⟩
  · intro hrev hprof
    rw [Main3.format_deal_data]
    simp only [hid, hrev, Bool.false_eq_true, if_false]
    rw [if_neg (by omega), if_neg hprof]
    rfl
  · intro hprof hrev
    rw [Main3.format_deal_data]
    simp only [hid, hprof, Bool.false_eq_true, if_false]
    rw [if_neg hrev, if_neg (by omega)]
    rfl
  · intro hrev h1 h2
    rw [Main3.format_deal_data]
    simp only [hid, hrev, Bool.false_eq_true, if_false]
    rw [if_neg (by omega), if_pos ⟨h1, h2⟩]
    rfl

/-- Witness for `sentinel_passes_main3`: a record with denylisted
revenue (`非公開`) and masked profit (`**`, both the `0` sentinel) is
emitted; a record with unresolved revenue but a positive
below-threshold profit (`100万円` = 1,000,000 < 30,000,000) is
rejected because of the profit, not the unresolved revenue. -/
theorem sentinel_passes_main3_witness :
    (Main3.format_deal_data 300000000 30000000 "2026-10-12 00:00:00"
      [⟨"スピードM&A", "案件", "1", "https://speed-ma.com/projects/1",
        "非公開", "**", "", "", ""⟩] []).length = 1 ∧
    (Main3.format_deal_data 300000000 30000000 "2026-10-12 00:00:00"
      [⟨"スピードM&A", "案件", "2", "https://speed-ma.com/projects/2",
        "非公開", "100万円", "", "", ""⟩] []).length = 0 :=
  ⟨(sentinel_passes_main3 300000000 30000000 "2026-10-12 00:00:00"
      ⟨"スピードM&A", "案件", "1", "https://speed-ma.com/projects/1",
        "非公開", "**", "", "", ""⟩ [] (by decide)).1
      (by decide) (by decide),
   (sentinel_passes_main3 300000000 30000000 "2026-10-12 00:00:00"
      ⟨"スピードM&A", "案件", "2", "https://speed-ma.com/projects/2",
        "非公開", "100万円", "", "", ""⟩ [] (by decide)).2.2
      (by decide) (by decide) (by decide)⟩

/-! ### C1: at-most-one emission per uniqueId -/

/-- A concrete Strike raw deal (exempt from the main.py financial
check). -/
def strikeRaw : RawDealData :=
  ⟨"ストライク", "製造業の譲渡案件", "123", "https://example.com/deal/123",
    "", "", "", "", ""⟩

/-- Claim C1 (corrected), counterexample: main.py's `format_deal_data`
never adds a freshly emitted `unique_id` to `existing_ids`, so
ingesting the same `RawDealData` twice in one run emits two
`FormattedDealData` with the same `unique_id` — the at-most-one
property fails there. -/
theorem double_emission_main :
    (Main.format_deal_data 300000000 30000000 "2026-10-12 00:00:00"
        [strikeRaw, strikeRaw] []).length = 2 ∧
    ¬ (((Main.format_deal_data 300000000 30000000 "2026-10-12 00:00:00"
        [strikeRaw, strikeRaw] []).map (fun d => d.unique_id)).Nodup) := by
  constructor
  · rfl
  · intro h
    have he : ((Main.format_deal_data 300000000 30000000
        "2026-10-12 00:00:00" [strikeRaw, strikeRaw] []).map
          (fun d => d.unique_id)) =
        [Main.unique_id strikeRaw, Main.unique_id strikeRaw] := rfl
    rw [he] at h
    simp at h

theorem main2_outputs_fresh (ff : RawDealData → String × String × String)
    (t : String) (deals : List RawDealData) (ids : List String) :
    ∀ d ∈ Main2.format_deal_data ff t deals ids, d.unique_id ∉ ids := by
  induction deals generalizing ids with
  | nil =>
    intro d hd
    simp [Main2.format_deal_data] at hd
  | cons r rest ih =>
    intro d hd
    rw [Main2.format_deal_data] at hd
    by_cases hc : ids.contains (Main2.unique_id r)
    · rw [if_pos hc] at hd
      exact ih ids d hd
    · rw [if_neg hc] at hd
      rcases List.mem_cons.mp hd with h | h
      · subst h
        intro hmem
        exact hc (List.elem_eq_true_of_mem hmem)
      · have := ih (Main2.unique_id r :: ids) d h
        intro hmem
        exact this (List.mem_cons_of_mem _ hmem)

theorem main2_unique_ids_nodup (ff : RawDealData → String × String × String)
    (t : String) (deals : List RawDealData) (ids : List String) :
    ((Main2.format_deal_data ff t deals ids).map
      (fun d => d.unique_id)).Nodup := by
  induction deals generalizing ids with
  | nil => simp [Main2.format_deal_data]
  | cons r rest ih =>
    rw [Main2.format_deal_data]
    by_cases hc : ids.contains (Main2.unique_id r)
    · rw [if_pos hc]
      exact ih ids
    · rw [if_neg hc]
      simp only [List.map_cons, List.nodup_cons]
      refine ⟨?_, ih _⟩
      intro hmem
      obtain ⟨d, hd, hde⟩ := List.mem_map.mp hmem
      have := main2_outputs_fresh ff t rest (Main2.unique_id r :: ids) d hd
      exact this (hde ▸ List.mem_cons_self _ _)

/-- Claim C1 (corrected, amended): in main2's ingestion — which adds
each emitted `unique_id` to `existing_ids` before processing the next
record — at most one record is emitted per `unique_id` (the emitted id
list has no duplicates), a record whose `unique_id` is already known
yields nothing, and the same `RawDealData` twice in one run yields
exactly one output.  In main.py's ingestion the set is never grown, so
the same record twice yields two outputs (third conjunct; the
counterexample instantiates it). -/
theorem ingestion_dedup_amended :
    (∀ (ff : RawDealData → String × String × String) (t : String)
        (deals : List RawDealData) (ids : List String),
      ((Main2.format_deal_data ff t deals ids).map
        (fun d => d.unique_id)).Nodup ∧
      ∀ d ∈ Main2.format_deal_data ff t deals ids, d.unique_id ∉ ids) ∧
    (∀ (ff : RawDealData → String × String × String) (t : String)
        (r : RawDealData) (ids : List String),
      (Main2.format_deal_data ff t [r, r] ids).length =
        if Main2.unique_id r ∈ ids then 0 else 1) ∧
    (∀ (minr minp : ℤ) (t : String) (r : RawDealData) (ids : List String),
      ids.contains (Main.unique_id r) = false →
      threshold_exempt_sites.contains r.site_name = true →
      (Main.format_deal_data minr minp t [r, r] ids).length = 2) := by
  refine ⟨fun ff t deals ids =>
    ⟨main2_unique_ids_nodup ff t deals ids,
     main2_outputs_fresh ff t deals ids⟩, ?_, ?_⟩
  · intro ff t r ids
    by_cases hmem : Main2.unique_id r ∈ ids
    · rw [if_pos hmem]
      have hc : ids.contains (Main2.unique_id r) = true :=
        List.elem_eq_true_of_mem hmem
      simp [Main2.format_deal_data, hc, hmem]
    · rw [if_neg hmem]
      have hc : ids.contains (Main2.unique_id r) = false := by
        rcases h : ids.contains (Main2.unique_id r) with _ | _
        · rfl
        · exact absurd (List.mem_of_elem_eq_true h) hmem
      simp [Main2.format_deal_data, hc, hmem]
  · intro minr minp t r ids hid hexempt
    have hnm : Main.unique_id r ∉ ids := by
      intro hm
      have h' : List.elem (Main.unique_id r) ids = false := hid
      rw [List.elem_eq_true_of_mem hm] at h'
      exact absurd h' (by simp)
    have hex : r.site_name ∈ threshold_exempt_sites :=
      List.mem_of_elem_eq_true hexempt
    simp [Main.format_deal_data, hnm, hex]

/-- Witness for `ingestion_dedup_amended`: concrete instantiations of
each conjunct, hypotheses discharged by evaluation. -/
theorem ingestion_dedup_amended_witness :
    ((Main2.format_deal_data (fun _ => ("-", "-", "-")) "t"
        [strikeRaw, strikeRaw] []).map (fun d => d.unique_id)).Nodup ∧
    (Main2.format_deal_data (fun _ => ("-", "-", "-")) "t"
        [strikeRaw, strikeRaw] []).length = 1 ∧
    (Main.format_deal_data 300000000 30000000 "t"
        [strikeRaw, strikeRaw] []).length = 2 :=
  ⟨(ingestion_dedup_amended.1 (fun _ => ("-", "-", "-")) "t"
      [strikeRaw, strikeRaw] []).1,
   (ingestion_dedup_amended.2.1 (fun _ => ("-", "-", "-")) "t"
      strikeRaw []).trans (if_neg (by simp)),
   ingestion_dedup_amended.2.2 300000000 30000000 "t" strikeRaw []
     (by rfl) (by rfl)⟩

/-! ### C2: the identity input of the uniqueId hash -/

def rLinkA : RawDealData :=
  ⟨"S", "титul", "1", "https://example.com/deal", "", "", "", "", ""⟩

def rLinkB : RawDealData :=
  ⟨"S", "титul", "2", "https://example.com/deal", "", "", "", "", ""⟩

set_option maxRecDepth 40000

/-- Claim C2 (corrected), counterexample: two records with the same
`site_name` and the same non-empty `link` but different `deal_id`
have, per the claim, the same identity input (the link), hence the
same `uniqueId`; main.py's `format_deal_data` hashes
`f"{site_name}_{deal_id}"` regardless of the link and gives them
different ids. -/
theorem unique_id_ignores_link_counterexample :
    rLinkA.site_name = rLinkB.site_name ∧
    rLinkA.link = rLinkB.link ∧ rLinkA.link ≠ "" ∧
    Main.unique_id rLinkA ≠ Main.unique_id rLinkB := by
  refine ⟨rfl, rfl, by decide, by decide⟩

/-- Claim C2 (corrected, amended): in main2's ingestion the identity
input of the `uniqueId` hash is `(site_name, link)` when the link is
non-empty and `(site_name, deal_id)` otherwise; in main.py's (and
main3's) ingestion it is always `(site_name, deal_id)` — the link is
never consulted.  Within each version the id is a deterministic
function of those fields, so records agreeing on them always receive
the same `uniqueId`. -/
theorem unique_id_identity_input :
    (∀ r : RawDealData, r.link ≠ "" →
      Main2.unique_id r = md5hex12 (r.site_name ++ "_" ++ r.link)) ∧
    (∀ r : RawDealData, r.link = "" →
      Main2.unique_id r = md5hex12 (r.site_name ++ "_" ++ r.deal_id)) ∧
    (∀ (r : RawDealData) (l : String),
      Main.unique_id { r with link := l } = Main.unique_id r) ∧
    (∀ r₁ r₂ : RawDealData, r₁.site_name = r₂.site_name →
      r₁.deal_id = r₂.deal_id → Main.unique_id r₁ = Main.unique_id r₂) ∧
    (∀ r₁ r₂ : RawDealData, r₁.site_name = r₂.site_name →
      r₁.deal_id = r₂.deal_id → r₁.link = r₂.link →
      Main2.unique_id r₁ = Main2.unique_id r₂) := by
  refine ⟨?_, ?_, ?_, ?_, ?_⟩
  · intro r h
    rw [Main2.unique_id, if_pos h]
  · intro r h
    rw [Main2.unique_id, if_neg (by simp [h])]
  · intro r l
    rfl
  · intro r₁ r₂ h₁ h₂
    rw [Main.unique_id, Main.unique_id, h₁, h₂]
  · intro r₁ r₂ h₁ h₂ h₃
    rw [Main2.unique_id, Main2.unique_id, h₁, h₂, h₃]

/-- Witness for `unique_id_identity_input` at concrete records. -/
theorem unique_id_identity_input_witness :
    Main2.unique_id rLinkA =
      md5hex12 (rLinkA.site_name ++ "_" ++ rLinkA.link) ∧
    Main.unique_id { rLinkA with link := "https://other.example" } =
      Main.unique_id rLinkA ∧
    Main.unique_id rLinkA = Main.unique_id { rLinkA with link := "" } :=
  ⟨unique_id_identity_input.1 rLinkA (by decide),
   unique_id_identity_input.2.2.1 rLinkA "https://other.example",
   unique_id_identity_input.2.2.2.1 rLinkA { rLinkA with link := "" }
     rfl rfl⟩

/-! ### C4: range texts compare the last (right-hand) segment -/

/-- The last (right-hand) segment of the split of the translated,
comma-stripped text on the range-separator class `[〜～-]` — the
segment `parse_financial_value` resolves its numeric token from. -/
def lastRangeSegment (text : String) : List Char :=
  (splitOnPred isRangeSep
    (removeCommas (translateDigits text)).toList).getLastD []

/-- The magnitude resolved from one segment: its first `[\d\.]+`
token converted by `float`, scaled by the first unit found in the
whole translated text (the unit lookup of the source runs on the full
text, not the segment), truncated by `int()`; `0` when no token
parses. -/
def segmentValue (text : String) (seg : List Char) : ℤ :=
  match firstNumToken seg with
  | none => 0
  | some tok =>
    match pyFloatOfToken tok with
    | none => 0
    | some v =>
      pyInt (applyMultiplier (removeCommas (translateDigits text)) v)

theorem parse_eq_segmentValue (text : String)
    (hs : isSentinelText text = false) :
    DataConverter.parse_financial_value text =
      segmentValue text (lastRangeSegment text) := by
  rw [DataConverter.parse_financial_value, if_neg (by simp [hs])]
  rfl

/-- Claim C4 (confirmed): for a non-sentinel text containing a range
separator (`〜`, `～` or `-`), the magnitude used by the threshold
comparison is resolved from the last (right-hand) range segment, and
qualification holds exactly when that magnitude is `≥` the threshold;
for a single value (no separator) the value of the whole text is
compared directly. -/
theorem range_threshold_uses_last_segment (text : String) (threshold : ℤ)
    (hs : isSentinelText text = false) :
    (text.toList.any isRangeSep = true →
      DataConverter.parse_financial_value text =
        segmentValue text (lastRangeSegment text) ∧
      (qualifies text threshold = true ↔
        threshold ≤ segmentValue text (lastRangeSegment text))) ∧
    (text.toList.any isRangeSep = false →
      (qualifies text threshold = true ↔
        threshold ≤ DataConverter.parse_financial_value text)) := by
  have hq : qualifies text threshold = true ↔
      threshold ≤ DataConverter.parse_financial_value text := by
    simp [qualifies, not_lt]
  refine ⟨fun _ => ⟨parse_eq_segmentValue text hs, ?_⟩, fun _ => hq⟩
  rw [← parse_eq_segmentValue text hs]
  exact hq

/-- Witness for `range_threshold_uses_last_segment`: the range text
`"5,000万円〜1億円"` at threshold `30000000` (maximum wins) and the
single-value text `"約820百万円"` at threshold `300000000`. -/
theorem range_threshold_uses_last_segment_witness :
    (qualifies "5,000万円〜1億円" 30000000 = true ↔
      (30000000 : ℤ) ≤ segmentValue "5,000万円〜1億円"
        (lastRangeSegment "5,000万円〜1億円")) ∧
    (qualifies "約820百万円" 300000000 = true ↔
      (300000000 : ℤ) ≤
        DataConverter.parse_financial_value "約820百万円") :=
  ⟨((range_threshold_uses_last_segment "5,000万円〜1億円" 30000000
      (by decide)).1 (by decide)).2,
   (range_threshold_uses_last_segment "約820百万円" 300000000
      (by decide)).2 (by decide)⟩

/-! ### C5: exception behavior of the normalizer -/

/-- The IEEE-754 double overflow threshold: a nonnegative value
`≥ 2 ^ 1024 - 2 ^ 970` rounds, under round-to-nearest-ties-to-even,
to infinity; anything below rounds to a finite double.  (Checked
against CPython: `float` of this threshold's decimal string is `inf`,
of threshold minus one it is the largest finite double.) -/
def doubleOverflowBound : ℤ := 2 ^ 1024 - 2 ^ 970

/-- Does this (nonnegative) exact decimal lie in the overflow range of
a double? -/
def Dec.overflows (d : Dec) : Bool := doubleOverflowBound * 10 ^ d.e ≤ d.m

/-- A Python float as the normalizer manipulates it: a finite value
(kept exact, see the header) or `inf`, produced by converting or
computing an over-range value.  Negative values and `nan` cannot
arise from `[\d\.]+` tokens and positive multipliers. -/
inductive PyFloat where
  | finite (d : Dec)
  | inf
  deriving DecidableEq, Repr

namespace PyFloat

/-- Put an exact nonnegative decimal into the float domain. -/
def ofDec (d : Dec) : PyFloat :=
  if d.overflows then .inf else .finite d

/-- `value * k` in float arithmetic: overflow is silent (`inf`). -/
def mulInt (v : PyFloat) (k : ℤ) : PyFloat :=
  match v with
  | .finite d => ofDec (d.mulInt k)
  | .inf => .inf

/-- `value / 10 ^ k` in float arithmetic (cannot overflow). -/
def divPow10 (v : PyFloat) (k : ℕ) : PyFloat :=
  match v with
  | .finite d => .finite (d.divPow10 k)
  | .inf => .inf

end PyFloat

/-- Python `float` on a `[\d\.]+` token, with its exception explicit:
`ValueError` on an invalid literal; an over-range token converts to
`inf`, which is NOT an error. -/
def pyFloatE (cs : List Char) : Except String PyFloat :=
  match pyFloatOfToken cs with
  | some d => Except.ok (PyFloat.ofDec d)
  | none => Except.error "ValueError"

/-- Python `int()` on a float: truncation of a finite value;
`OverflowError` on `inf`.  In the source this call sits outside the
`try/except ValueError` around `float(...)`, so the error escapes the
function. -/
def pyIntE (v : PyFloat) : Except String ℤ :=
  match v with
  | .finite d => .ok (pyInt d)
  | .inf => .error "OverflowError"

/-- The unit-multiplier loop (src/main.py lines 119-123) in float
arithmetic: `value *= multiplier` overflows silently to `inf`. -/
def applyMultiplierF (text : String) (v : PyFloat) : PyFloat :=
  if strContains text "億" then v.mulInt 100000000
  else if strContains text "千万" then v.mulInt 10000000
  else if strContains text "百万" then v.mulInt 1000000
  else if strContains text "万" then v.mulInt 10000
  else v

/-- The emission tail of `_to_million_format` in float semantics: an
infinite `million_value` passes the `>= 1` test and then
`int(million_value)` — evaluated first by the
`million_value == int(million_value)` condition — raises
`OverflowError`; a finite value behaves exactly as `millionOut`. -/
def millionOutE (mv : PyFloat) (part : String) : Except String String :=
  match mv with
  | .finite d => .ok (millionOut d part)
  | .inf => .error "OverflowError"

namespace DataConverter

/-- `parse_financial_value` with Python's exception flow explicit: the
`ValueError` of `float(...)` is caught by the `try/except` of
src/main.py lines 115-118 (yielding `0`), but the `int(value)` of
line 124 sits outside it, so an overflowed value (`inf`) raises an
uncaught `OverflowError`. -/
def parse_financial_valueE (text : String) : Except String ℤ :=
  if isSentinelText text then .ok 0
  else
    let text' := removeCommas (translateDigits text)
    let target := (splitOnPred isRangeSep text'.toList).getLastD []
    match firstNumToken target with
    | none => .ok 0
    | some tok =>
      match pyFloatE tok with
      | .error _ => .ok 0
      | .ok v => pyIntE (applyMultiplierF text' v)

/-- `_to_million_format` with the exception flow explicit: the
`try/except ValueError` of src/main.py lines 137-140 returns the part
unchanged, but an infinite `million_value` raises an uncaught
`OverflowError` in the emission tail. -/
def toMillionFormatE (part : String) : Except String String :=
  let clean := pyStrip (removeCommas part)
  match firstNumToken clean.toList with
  | none => .ok part
  | some tok =>
    match pyFloatE tok with
    | .error _ => .ok part
    | .ok value =>
      if strContains part "億" then millionOutE (value.mulInt 100) part
      else if strContains part "千万" then millionOutE (value.mulInt 10) part
      else if strContains part "百万円" then .ok part
      else if strContains part "万" && !strContains part "百万" then
        millionOutE (value.divPow10 2) part
      else .ok part

/-- `format_financial_text` with the exception flow explicit (an
`OverflowError` raised while formatting a part propagates out of the
join). -/
def format_financial_textE (text : String) : Except String String :=
  if isSentinelText text then .ok (if text = "" then "N/A" else text)
  else
    let sep : Char := if strContains text "～" then '～' else '〜'
    if strContains text (String.mk [sep]) then
      let parts := (splitOnPred (fun c => c = sep) text.toList).map String.mk
      if parts.length = 2 then do
        let fs ← parts.mapM (fun p => toMillionFormatE (pyStrip p))
        return String.intercalate "～" fs
      else toMillionFormatE text
    else toMillionFormatE text

end DataConverter

/-- `segmentValueE`: the exception-carrying resolution of one segment,
mirroring `segmentValue`. -/
def segmentValueE (text : String) (seg : List Char) : Except String ℤ :=
  match firstNumToken seg with
  | none => .ok 0
  | some tok =>
    match pyFloatE tok with
    | .error _ => .ok 0
    | .ok v =>
      pyIntE (applyMultiplierF (removeCommas (translateDigits text)) v)

theorem parseE_eq_segmentValueE (text : String)
    (hs : isSentinelText text = false) :
    DataConverter.parse_financial_valueE text =
      segmentValueE text (lastRangeSegment text) := by
  rw [DataConverter.parse_financial_valueE, if_neg (by simp [hs])]
  rfl

theorem mapM_ok_or {α β : Type} (f : α → Except String β) (g : α → β)
    (E : String) (hf : ∀ a, f a = .ok (g a) ∨ f a = .error E)
    (l : List α) :
    l.mapM f = .ok (l.map g) ∨ l.mapM f = .error E := by
  induction l with
  | nil => left; rfl
  | cons a tl ih =>
    rcases hf a with h | h
    · rcases ih with h2 | h2
      · left
        rw [List.mapM_cons, h, h2]
        rfl
      · right
        rw [List.mapM_cons, h, h2]
        rfl
    · right
      rw [List.mapM_cons, h]
      rfl

theorem mulInt_finite_or (d : Dec) (k : ℤ) :
    (PyFloat.finite d).mulInt k = PyFloat.finite (d.mulInt k) ∨
    (PyFloat.finite d).mulInt k = PyFloat.inf := by
  unfold PyFloat.mulInt
  dsimp only
  unfold PyFloat.ofDec
  split
  · right; rfl
  · left; rfl

theorem millionOutE_mul_or (d : Dec) (k : ℤ) (part : String) :
    millionOutE ((PyFloat.finite d).mulInt k) part =
      .ok (millionOut (d.mulInt k) part) ∨
    millionOutE ((PyFloat.finite d).mulInt k) part =
      .error "OverflowError" := by
  rcases mulInt_finite_or d k with h | h
  · left
    rw [h]
    rfl
  · right
    rw [h]
    rfl

theorem applyMultiplierF_ofDec_or (t : String) (d : Dec) :
    applyMultiplierF t (PyFloat.ofDec d) =
      PyFloat.finite (applyMultiplier t d) ∨
    applyMultiplierF t (PyFloat.ofDec d) = PyFloat.inf := by
  unfold PyFloat.ofDec
  split
  · right
    unfold applyMultiplierF
    split
    · rfl
    · split
      · rfl
      · split
        · rfl
        · split
          · rfl
          · rfl
  · unfold applyMultiplierF applyMultiplier
    split
    · exact mulInt_finite_or d 100000000
    · split
      · exact mulInt_finite_or d 10000000
      · split
        · exact mulInt_finite_or d 1000000
        · split
          · exact mulInt_finite_or d 10000
          · left; rfl

theorem toMillionFormatE_ok_or (part : String) :
    DataConverter.toMillionFormatE part =
      .ok (DataConverter.toMillionFormat part) ∨
    DataConverter.toMillionFormatE part = .error "OverflowError" := by
  unfold DataConverter.toMillionFormatE DataConverter.toMillionFormat
  dsimp only
  cases h1 : firstNumToken (pyStrip (removeCommas part)).toList with
  | none => left; rfl
  | some tok =>
    dsimp only
    unfold pyFloatE
    cases h2 : pyFloatOfToken tok with
    | none => left; simp [h2]
    | some d =>
      simp only [h2]
      cases hv : PyFloat.ofDec d with
      | inf =>
        split
        · right; rfl
        · split
          · right; rfl
          · split
            · left; rfl
            · split
              · right; rfl
              · left; rfl
      | finite d0 =>
        have hd0 : d0 = d := by
          unfold PyFloat.ofDec at hv
          split at hv
          · exact PyFloat.noConfusion hv
          · injection hv with h
            exact h.symm
        subst hd0
        split
        · exact millionOutE_mul_or d0 100 part
        · split
          · exact millionOutE_mul_or d0 10 part
          · split
            · left; rfl
            · split
              · left; rfl
              · left; rfl

theorem formatE_join_or (l : List String) :
    (do
      let fs ← l.mapM (fun p => DataConverter.toMillionFormatE (pyStrip p))
      return String.intercalate "～" fs) =
      Except.ok (String.intercalate "～"
        (l.map (fun p => DataConverter.toMillionFormat (pyStrip p)))) ∨
    (do
      let fs ← l.mapM (fun p => DataConverter.toMillionFormatE (pyStrip p))
      return String.intercalate "～" fs) =
      Except.error "OverflowError" := by
  rcases mapM_ok_or (fun p => DataConverter.toMillionFormatE (pyStrip p))
      (fun p => DataConverter.toMillionFormat (pyStrip p)) "OverflowError"
      (fun p => toMillionFormatE_ok_or (pyStrip p)) l with h | h
  · left
    rw [h]
    rfl
  · right
    rw [h]
    rfl

/-! Facts about the 400-digit overflow input, established by induction
rather than by evaluation. -/

theorem strContains_replicate_false (n : ℕ) (c : Char) (needle : String)
    (d : Char) (tl : List Char) (hkw : needle.toList = d :: tl)
    (hne : (d == c) = false) :
    strContains (String.mk (List.replicate n c)) needle = false := by
  unfold strContains
  have hX : (String.mk (List.replicate n c)).toList =
      List.replicate n c := rfl
  rw [hX, List.any_eq_false]
  intro t ht
  rw [List.mem_tails] at ht
  have hall : ∀ b ∈ t, b = c := fun b hb =>
    List.eq_of_mem_replicate (ht.subset hb)
  rw [List.eq_replicate_of_mem hall, hkw]
  cases hl : t.length with
  | zero => simp [List.isPrefixOf]
  | succ m =>
    rw [List.replicate_succ]
    simp [List.isPrefixOf, hne]

theorem isSentinelText_replicate_nine :
    isSentinelText (String.mk (List.replicate 400 '9')) = false := by
  unfold isSentinelText
  have h0 : (decide (String.mk (List.replicate 400 '9') = "")) = false := by
    apply decide_eq_false
    intro h
    have h' : (String.mk (List.replicate 400 '9')).data =
        ("" : String).data := by rw [h]
    have he : ("" : String).data = [] := rfl
    have h400 : (String.mk (List.replicate 400 '9')).data =
        '9' :: List.replicate 399 '9' := rfl
    rw [he, h400] at h'
    exact List.noConfusion h'
  rw [h0, Bool.false_or, List.any_eq_false]
  intro kw hkw
  simp only [sentinelKeywords, List.mem_cons, List.not_mem_nil,
    or_false] at hkw
  rcases hkw with rfl | rfl | rfl | rfl | rfl | rfl | rfl
  · rw [strContains_replicate_false 400 '9' "非公開" '非' ['公', '開']
      rfl (by decide)]
    decide
  · rw [strContains_replicate_false 400 '9' "応相談" '応' ['相', '談']
      rfl (by decide)]
    decide
  · rw [strContains_replicate_false 400 '9' "赤字" '赤' ['字']
      rfl (by decide)]
    decide
  · rw [strContains_replicate_false 400 '9' "N/A" 'N' ['/', 'A']
      rfl (by decide)]
    decide
  · rw [strContains_replicate_false 400 '9' "希望なし" '希' ['望', 'な', 'し']
      rfl (by decide)]
    decide
  · rw [strContains_replicate_false 400 '9' "黒字なし" '黒' ['字', 'な', 'し']
      rfl (by decide)]
    decide
  · rw [strContains_replicate_false 400 '9' "損益なし" '損' ['益', 'な', 'し']
      rfl (by decide)]
    decide

theorem filter_replicate_pos (p : Char → Bool) (c : Char)
    (h : p c = true) : ∀ n,
    List.filter p (List.replicate n c) = List.replicate n c := by
  intro n
  induction n with
  | zero => rfl
  | succ m ih =>
    rw [List.replicate_succ, List.filter_cons_of_pos h, ih]

theorem takeWhile_replicate_pos (p : Char → Bool) (c : Char)
    (h : p c = true) : ∀ n,
    List.takeWhile p (List.replicate n c) = List.replicate n c := by
  intro n
  induction n with
  | zero => rfl
  | succ m ih =>
    rw [List.replicate_succ, List.takeWhile_cons_of_pos h, ih]

theorem dropWhile_replicate_pos (p : Char → Bool) (c : Char)
    (h : p c = true) : ∀ n,
    List.dropWhile p (List.replicate n c) = [] := by
  intro n
  induction n with
  | zero => rfl
  | succ m ih =>
    rw [List.replicate_succ, List.dropWhile_cons_of_pos h, ih]

theorem translateDigits_replicate_nine :
    translateDigits (String.mk (List.replicate 400 '9')) =
      String.mk (List.replicate 400 '9') := by
  unfold translateDigits
  have hX : (String.mk (List.replicate 400 '9')).toList =
      List.replicate 400 '9' := rfl
  rw [hX, List.map_replicate, show zenToHanDigit '9' = '9' from by decide]

theorem removeCommas_replicate_nine :
    removeCommas (String.mk (List.replicate 400 '9')) =
      String.mk (List.replicate 400 '9') := by
  unfold removeCommas
  have hX : (String.mk (List.replicate 400 '9')).toList =
      List.replicate 400 '9' := rfl
  rw [hX, filter_replicate_pos _ _ (by decide)]

theorem splitOnPredAux_nosep (p : Char → Bool) :
    ∀ (l acc : List Char), (∀ c ∈ l, p c = false) →
      splitOnPredAux p acc l = [acc.reverse ++ l] := by
  intro l
  induction l with
  | nil =>
    intro acc _
    simp [splitOnPredAux]
  | cons c cs ih =>
    intro acc h
    have hc : p c = false := h c (List.mem_cons_self c cs)
    simp only [splitOnPredAux, hc, Bool.false_eq_true, if_false]
    rw [ih (c :: acc) (fun x hx => h x (List.mem_cons_of_mem c hx))]
    simp

theorem lastRangeSegment_replicate_nine :
    lastRangeSegment (String.mk (List.replicate 400 '9')) =
      List.replicate 400 '9' := by
  unfold lastRangeSegment
  rw [translateDigits_replicate_nine, removeCommas_replicate_nine]
  have hX : (String.mk (List.replicate 400 '9')).toList =
      List.replicate 400 '9' := rfl
  rw [hX]
  unfold splitOnPred
  rw [splitOnPredAux_nosep isRangeSep (List.replicate 400 '9') []
    (fun c hc => by rw [List.eq_of_mem_replicate hc]; rfl)]
  simp

theorem firstNumToken_replicate_nine :
    firstNumToken (List.replicate 400 '9') =
      some (List.replicate 400 '9') := by
  unfold firstNumToken
  have h400 : List.replicate 400 '9' = '9' :: List.replicate 399 '9' := rfl
  rw [h400, List.dropWhile_cons_of_neg (by decide)]
  dsimp only
  rw [← h400, takeWhile_replicate_pos isNumDot '9' (by decide) 400]

theorem natOfDigits_replicate_nine (n : ℕ) :
    natOfDigits (List.replicate n '9') = 10 ^ n - 1 := by
  have key : ∀ (m a : ℕ),
      List.foldl (fun k c => 10 * k + ((zenToHanDigit c).toNat - 48)) a
        (List.replicate m '9') = a * 10 ^ m + (10 ^ m - 1) := by
    intro m
    induction m with
    | zero => intro a; simp
    | succ k ih =>
      intro a
      rw [List.replicate_succ, List.foldl_cons, ih]
      rw [show ((zenToHanDigit '9').toNat - 48) = 9 from by decide]
      have hq1 : 1 ≤ 10 ^ k := Nat.one_le_pow _ _ (by omega)
      have hmul : (10 * a + 9) * 10 ^ k =
          10 * (a * 10 ^ k) + 9 * 10 ^ k := by ring
      have hpow : 10 ^ (k + 1) = 10 * 10 ^ k := by
        rw [pow_succ]
        ring
      have hmul2 : a * 10 ^ (k + 1) = 10 * (a * 10 ^ k) := by
        rw [hpow]
        ring
      rw [hmul, hmul2, hpow]
      omega
  unfold natOfDigits
  simpa using key n 0

theorem pyFloatOfToken_replicate_nine :
    pyFloatOfToken (List.replicate 400 '9') =
      some ⟨((10 ^ 400 - 1 : ℕ) : ℤ), 0⟩ := by
  unfold pyFloatOfToken
  have hc : List.count '.' (List.replicate 400 '9') = 0 := by
    rw [List.count_replicate, if_neg (by decide)]
  have ha : (List.replicate 400 '9').any isPyDigit = true :=
    List.any_eq_true.mpr
      ⟨'9', List.mem_replicate.mpr ⟨by omega, rfl⟩, by decide⟩
  rw [hc, if_neg (by omega), ha, if_neg (by decide)]
  dsimp only
  rw [takeWhile_replicate_pos isPyDigit '9' (by decide) 400,
    dropWhile_replicate_pos isPyDigit '9' (by decide) 400,
    show ([] : List Char).drop 1 = [] from rfl, List.append_nil,
    natOfDigits_replicate_nine 400]
  rfl

theorem overflows_pow400 :
    Dec.overflows ⟨((10 ^ 400 - 1 : ℕ) : ℤ), 0⟩ = true := by
  apply decide_eq_true
  show doubleOverflowBound * 10 ^ (0 : ℕ) ≤ ((10 ^ 400 - 1 : ℕ) : ℤ)
  have hb : ((2 ^ 1024 - 2 ^ 970 : ℕ) : ℤ) = doubleOverflowBound := by
    rw [Nat.cast_sub (Nat.pow_le_pow_right (by omega) (by omega))]
    unfold doubleOverflowBound
    push_cast
    ring
  rw [← hb, pow_zero, mul_one, Nat.cast_le]
  decide

theorem applyMultiplierF_replicate_nine (v : PyFloat) :
    applyMultiplierF (String.mk (List.replicate 400 '9')) v = v := by
  unfold applyMultiplierF
  rw [strContains_replicate_false 400 '9' "億" '億' [] rfl (by decide),
    strContains_replicate_false 400 '9' "千万" '千' ['万'] rfl (by decide),
    strContains_replicate_false 400 '9' "百万" '百' ['万'] rfl (by decide),
    strContains_replicate_false 400 '9' "万" '万' [] rfl (by decide)]
  simp

/-- Claim C5 (corrected), counterexample: the normalizer CAN raise.
On the 400-digit input `'9' * 400`, `float` returns `inf` (the value
exceeds the double range; no `ValueError` is raised), and the
subsequent `int(value)` of src/main.py line 124 — outside the
`try/except ValueError` — raises an uncaught `OverflowError`.
(`format_financial_text` raises the same way on `'9' * 400 ++ "億円"`
via `int(million_value)`; both behaviors confirmed against CPython on
these inputs.) -/
theorem normalizer_overflow_raises :
    DataConverter.parse_financial_valueE
      (String.mk (List.replicate 400 '9')) = .error "OverflowError" := by
  rw [parseE_eq_segmentValueE _ isSentinelText_replicate_nine,
    lastRangeSegment_replicate_nine]
  unfold segmentValueE
  simp only [firstNumToken_replicate_nine]
  unfold pyFloatE
  simp only [pyFloatOfToken_replicate_nine]
  rw [translateDigits_replicate_nine, removeCommas_replicate_nine,
    applyMultiplierF_replicate_nine]
  rw [show PyFloat.ofDec ⟨((10 ^ 400 - 1 : ℕ) : ℤ), 0⟩ = PyFloat.inf from by
    unfold PyFloat.ofDec
    rw [if_pos overflows_pow400]]
  rfl

/-- Claim C5 (corrected, amended): the normalizer never raises on
malformed input — `float`'s `ValueError` is caught, and missing or
invalid numeric tokens degrade to the absent sentinel (`0` for the
parser; pass-through, `"N/A"` for empty, in the formatter) — but it
is not exception-free: when the numeric value (after unit scaling)
reaches the double overflow range, `float` arithmetic yields `inf`
and the `int()` conversion outside the `try/except` raises
`OverflowError`.  On every input, each function either returns
normally with the plain function's value or raises exactly
`OverflowError`; for the parser the overflow raise happens precisely
when the scaled value is infinite (last conjunct). -/
theorem financial_normalizer_raises_only_on_overflow (text : String) :
    (DataConverter.parse_financial_valueE text =
        .ok (DataConverter.parse_financial_value text) ∨
      DataConverter.parse_financial_valueE text =
        .error "OverflowError") ∧
    (DataConverter.format_financial_textE text =
        .ok (DataConverter.format_financial_text text) ∨
      DataConverter.format_financial_textE text =
        .error "OverflowError") ∧
    (firstNumToken (lastRangeSegment text) = none →
      DataConverter.parse_financial_valueE text = .ok 0 ∧
      DataConverter.parse_financial_value text = 0) ∧
    (∀ tok, firstNumToken (lastRangeSegment text) = some tok →
      pyFloatOfToken tok = none →
      DataConverter.parse_financial_valueE text = .ok 0 ∧
      DataConverter.parse_financial_value text = 0) ∧
    (isSentinelText text = true →
      DataConverter.format_financial_textE text =
        .ok (if text = "" then "N/A" else text)) ∧
    (∀ tok d, isSentinelText text = false →
      firstNumToken (lastRangeSegment text) = some tok →
      pyFloatOfToken tok = some d →
      (DataConverter.parse_financial_valueE text =
          .error "OverflowError" ↔
        applyMultiplierF (removeCommas (translateDigits text))
          (PyFloat.ofDec d) = PyFloat.inf)) := by
  refine ⟨?_, ?_, ?_, ?_, ?_, ?_⟩
  · unfold DataConverter.parse_financial_valueE
      DataConverter.parse_financial_value
    split
    · left; rfl
    · dsimp only
      cases h1 : firstNumToken ((splitOnPred isRangeSep
          (removeCommas (translateDigits text)).toList).getLastD []) with
      | none => left; rfl
      | some tok =>
        dsimp only
        unfold pyFloatE
        cases h2 : pyFloatOfToken tok with
        | none => left; simp [h2]
        | some d =>
          simp only [h2]
          rcases applyMultiplierF_ofDec_or
              (removeCommas (translateDigits text)) d with hv | hv
          · left
            rw [hv]
            rfl
          · right
            rw [hv]
            rfl
  · unfold DataConverter.format_financial_textE
      DataConverter.format_financial_text
    split
    · left; rfl
    · dsimp only
      split
      · split
        · exact formatE_join_or _
        · exact toMillionFormatE_ok_or text
      · split
        · split
          · exact formatE_join_or _
          · exact toMillionFormatE_ok_or text
        · exact toMillionFormatE_ok_or text
  · intro h
    by_cases hs : isSentinelText text
    · constructor
      · rw [DataConverter.parse_financial_valueE, if_pos hs]
      · rw [DataConverter.parse_financial_value, if_pos hs]
    · constructor
      · rw [parseE_eq_segmentValueE text (by simpa using hs)]
        unfold segmentValueE
        simp [h]
      · rw [parse_eq_segmentValue text (by simpa using hs)]
        unfold segmentValue
        simp [h]
  · intro tok htok hfl
    by_cases hs : isSentinelText text
    · constructor
      · rw [DataConverter.parse_financial_valueE, if_pos hs]
      · rw [DataConverter.parse_financial_value, if_pos hs]
    · constructor
      · rw [parseE_eq_segmentValueE text (by simpa using hs)]
        unfold segmentValueE
        simp [htok, pyFloatE, hfl]
      · rw [parse_eq_segmentValue text (by simpa using hs)]
        unfold segmentValue
        simp [htok, hfl]
  · intro h
    rw [DataConverter.format_financial_textE, if_pos h]
  · intro tok d hs htok hd
    rw [parseE_eq_segmentValueE text hs]
    unfold segmentValueE
    simp only [htok]
    unfold pyFloatE
    simp only [hd]
    cases hv : applyMultiplierF (removeCommas (translateDigits text))
        (PyFloat.ofDec d) with
    | finite d0 => simp [pyIntE, hv]
    | inf => simp [pyIntE, hv]

/-- Witness for `financial_normalizer_raises_only_on_overflow` at
concrete inputs, hypotheses discharged by evaluation: an ordinary
range text takes the `ok` branch, garbage parses to the `0` sentinel
without an error, and a denylisted text passes through the
formatter. -/
theorem financial_normalizer_raises_only_on_overflow_witness :
    (DataConverter.parse_financial_valueE "5,000万円〜1億円" =
        .ok (DataConverter.parse_financial_value "5,000万円〜1億円") ∨
      DataConverter.parse_financial_valueE "5,000万円〜1億円" =
        .error "OverflowError") ∧
    DataConverter.parse_financial_valueE "garbage ..." = .ok 0 ∧
    DataConverter.format_financial_textE "応相談" = .ok "応相談" :=
  ⟨(financial_normalizer_raises_only_on_overflow "5,000万円〜1億円").1,
   ((financial_normalizer_raises_only_on_overflow "garbage ...").2.2.2.1
     ['.', '.', '.'] (by decide) (by decide)).1,
   (financial_normalizer_raises_only_on_overflow "応相談").2.2.2.2.1
     (by decide)⟩

/-! ### C7: exactly one recovery fetch per block, session short-circuit -/

theorem fetchProtected_still_blocked {isB : String → Bool}
    {first retry : String} (h : isB first = true) :
    DetailPageScraper.fetchProtected isB true first retry =
      (true, none, 0) := by
  simp [DetailPageScraper.fetchProtected, h]

theorem fetchProtected_flag_absorbing (isB : String → Bool)
    (first retry : String) :
    (DetailPageScraper.fetchProtected isB true first retry).1 = true := by
  unfold DetailPageScraper.fetchProtected
  split
  · simp
  · rfl

theorem runProtected_blocked (isB : String → Bool)
    (items : List (String × String)) :
    ∀ p ∈ items.zip (DetailPageScraper.runProtected isB true items),
      isB p.1.1 = true → p.2 = (none, 0) := by
  induction items with
  | nil => intro p hp; simp at hp
  | cons it rest ih =>
    intro p hp hb
    rw [DetailPageScraper.runProtected] at hp
    have hflag := fetchProtected_flag_absorbing isB it.1 it.2
    rw [List.zip_cons_cons] at hp
    rcases List.mem_cons.mp hp with h | h
    · subst h
      simp only at hb
      rw [fetchProtected_still_blocked hb]
    · rw [hflag] at h
      exact ih p h hb

/-- Claim C7 (confirmed): after a fetched response matches a block
indicator the controller performs at most one recovery fetch per call
and never more; with a clear session flag, an unblocked retry clears
the flag and its content is used, a blocked retry keeps the flag set
and returns failure; once the flag is set, every later blocked fetch
in the session returns failure immediately with zero recovery
fetches (and the flag stays set forever). -/
theorem block_recovery_single_retry (isB : String → Bool) :
    (∀ (st : Bool) (first retry : String),
      (DetailPageScraper.fetchProtected isB st first retry).2.2 ≤ 1) ∧
    (∀ first retry, isB first = true → isB retry = false →
      DetailPageScraper.fetchProtected isB false first retry =
        (false, some retry, 1)) ∧
    (∀ first retry, isB first = true → isB retry = true →
      DetailPageScraper.fetchProtected isB false first retry =
        (true, none, 1)) ∧
    (∀ first retry, isB first = true →
      DetailPageScraper.fetchProtected isB true first retry =
        (true, none, 0)) ∧
    (∀ first retry,
      (DetailPageScraper.fetchProtected isB true first retry).1 = true) ∧
    (∀ items : List (String × String),
      ∀ p ∈ items.zip (DetailPageScraper.runProtected isB true items),
        isB p.1.1 = true → p.2 = (none, 0)) := by
  refine ⟨?_, ?_, ?_, ?_, fetchProtected_flag_absorbing isB,
    runProtected_blocked isB⟩
  · intro st first retry
    unfold DetailPageScraper.fetchProtected
    split
    · split
      · split <;> simp
      · simp
    · simp
  · intro first retry h1 h2
    simp [DetailPageScraper.fetchProtected, h1, h2]
  · intro first retry h1 h2
    simp [DetailPageScraper.fetchProtected, h1, h2]
  · intro first retry h1
    exact fetchProtected_still_blocked h1

/-- Witness for `block_recovery_single_retry` with a concrete block
test and concrete page bodies: recovery success, persistent block,
and the short-circuit in an already-blocked session. -/
theorem block_recovery_single_retry_witness :
    DetailPageScraper.fetchProtected (fun s => s = "BLOCK") false
      "BLOCK" "content" = (false, some "content", 1) ∧
    DetailPageScraper.fetchProtected (fun s => s = "BLOCK") false
      "BLOCK" "BLOCK" = (true, none, 1) ∧
    DetailPageScraper.fetchProtected (fun s => s = "BLOCK") true
      "BLOCK" "content" = (true, none, 0) :=
  ⟨(block_recovery_single_retry (fun s => s = "BLOCK")).2.1
      "BLOCK" "content" (by decide) (by decide),
   (block_recovery_single_retry (fun s => s = "BLOCK")).2.2.1
      "BLOCK" "BLOCK" (by decide) (by decide),
   (block_recovery_single_retry (fun s => s = "BLOCK")).2.2.2.1
      "BLOCK" "content" (by decide)⟩

/-! ### C8: bounded retry with growing delay; 4xx fails immediately -/

theorem retryLoop_count_le (o : ℕ → FetchOutcome) (d : ℕ) :
    ∀ (r a : ℕ), (retryLoop o d a r).2.1 ≤ r := by
  intro r
  induction r with
  | zero => intro a; simp [retryLoop]
  | succ n ih =>
    intro a
    rw [retryLoop]
    cases h : fetch_html_once (o a) with
    | ok v => simp
    | error e =>
      dsimp only
      split
      · simp
      · have := ih (a + 1)
        simp only
        omega

theorem retryLoop_count_pos (o : ℕ → FetchOutcome) (d : ℕ) :
    ∀ (r a : ℕ), 0 < r → 1 ≤ (retryLoop o d a r).2.1 := by
  intro r
  cases r with
  | zero => intro a h; omega
  | succ n =>
    intro a _
    rw [retryLoop]
    cases h : fetch_html_once (o a) with
    | ok v => simp
    | error e =>
      dsimp only
      split
      · simp
      · simp only
        omega

theorem retryLoop_all_err (o : ℕ → FetchOutcome) (d : ℕ)
    (herr : ∀ i, fetch_html_once (o i) = .error ()) :
    ∀ (r a : ℕ), 0 < r →
      (retryLoop o d a r).1 = .error () ∧ (retryLoop o d a r).2.1 = r := by
  intro r
  induction r with
  | zero => intro a h; omega
  | succ n ih =>
    intro a _
    rw [retryLoop, herr a]
    dsimp only
    split
    · rename_i hn
      subst hn
      simp
    · rename_i hn
      have := ih (a + 1) (by omega)
      constructor
      · exact this.1
      · simp only
        omega

theorem retryLoop_sleeps (o : ℕ → FetchOutcome) (d : ℕ) :
    ∀ (r a : ℕ),
      (retryLoop o d a r).2.2 =
        (List.range ((retryLoop o d a r).2.1 - 1)).map
          (fun i => d * (a + i + 1)) := by
  intro r
  induction r with
  | zero => intro a; simp [retryLoop]
  | succ n ih =>
    intro a
    rw [retryLoop]
    cases h : fetch_html_once (o a) with
    | ok v => simp
    | error e =>
      dsimp only
      split
      · simp
      · rename_i hn
        have hpos := retryLoop_count_pos o d n (a + 1) (by omega)
        obtain ⟨k, hk⟩ : ∃ k, (retryLoop o d (a + 1) n).2.1 = k + 1 :=
          ⟨(retryLoop o d (a + 1) n).2.1 - 1, by omega⟩
        simp only [ih (a + 1), hk, Nat.add_sub_cancel,
          List.range_succ_eq_map, List.map_cons, List.map_map]
        refine List.cons_eq_cons.mpr ⟨by ring_nf, ?_⟩
        apply List.map_congr_left
        intro i _
        simp only [Function.comp_apply, Nat.succ_eq_add_one]
        ring

/-- Claim C8 (confirmed): a fetch is attempted at most the configured
`max_retries` times; a client error (`status < 500`, other than a
block page, which this path never inspects) on the first attempt
returns failure (`None`) immediately with no retry and no sleep;
when every attempt raises a retryable error (timeout or 5xx) the
retries are exhausted — exactly `max_retries` attempts — and the
error surfaces; the sleeps between attempts are
`delay * 1, delay * 2, …` (linearly growing), strictly increasing
whenever `delay > 0`. -/
theorem fetch_retry_policy (outcomes : ℕ → FetchOutcome)
    (max_retries delay : ℕ) :
    (fetch_html outcomes max_retries delay).2.1 ≤ max_retries ∧
    (∀ c, c < 500 → outcomes 0 = .httpStatus c → 0 < max_retries →
      fetch_html outcomes max_retries delay = (.ok none, 1, [])) ∧
    ((∀ i, fetch_html_once (outcomes i) = .error ()) → 0 < max_retries →
      (fetch_html outcomes max_retries delay).1 = .error () ∧
      (fetch_html outcomes max_retries delay).2.1 = max_retries) ∧
    ((fetch_html outcomes max_retries delay).2.2 =
      (List.range ((fetch_html outcomes max_retries delay).2.1 - 1)).map
        (fun i => delay * (i + 1))) ∧
    (0 < delay →
      (fetch_html outcomes max_retries delay).2.2.Pairwise (· < ·)) := by
  have hsleeps : (fetch_html outcomes max_retries delay).2.2 =
      (List.range ((fetch_html outcomes max_retries delay).2.1 - 1)).map
        (fun i => delay * (i + 1)) := by
    have := retryLoop_sleeps outcomes delay max_retries 0
    simpa [fetch_html] using this
  refine ⟨retryLoop_count_le outcomes delay max_retries 0, ?_, ?_,
    hsleeps, ?_⟩
  · intro c hc h0 hmax
    obtain ⟨n, hn⟩ : ∃ n, max_retries = n + 1 :=
      ⟨max_retries - 1, by omega⟩
    subst hn
    rw [fetch_html, retryLoop, h0]
    simp [fetch_html_once, Nat.not_le.mpr hc]
  · intro herr hmax
    exact retryLoop_all_err outcomes delay herr max_retries 0 hmax
  · intro hd
    rw [hsleeps]
    rw [List.pairwise_map]
    refine List.Pairwise.imp ?_ (List.pairwise_lt_range _)
    intro a b hab
    exact Nat.mul_lt_mul_of_le_of_lt (le_refl delay)
      (by omega : a + 1 < b + 1) hd

/-- Witness for `fetch_retry_policy`: a 404 on the first attempt
returns `None` at once with no sleeps; three straight timeouts
exhaust `max_retries = 3` and surface the error; the sleeps with
`delay = 1` are strictly increasing. -/
theorem fetch_retry_policy_witness :
    fetch_html (fun _ => .httpStatus 404) 3 1 = (.ok none, 1, []) ∧
    (fetch_html (fun _ => .timeout) 3 1).1 = .error () ∧
    (fetch_html (fun _ => .timeout) 3 1).2.1 = 3 ∧
    (fetch_html (fun _ => .timeout) 3 1).2.2.Pairwise (· < ·) :=
  ⟨(fetch_retry_policy (fun _ => .httpStatus 404) 3 1).2.1 404
      (by decide) rfl (by decide),
   ((fetch_retry_policy (fun _ => .timeout) 3 1).2.2.1
      (fun _ => rfl) (by decide)).1,
   ((fetch_retry_policy (fun _ => .timeout) 3 1).2.2.1
      (fun _ => rfl) (by decide)).2,
   (fetch_retry_policy (fun _ => .timeout) 3 1).2.2.2.2 (by decide)⟩

/-! ### C10: the block detector -/

/-- Claim C10 (confirmed): `is_blocked_response` returns `false` on an
empty (or `None`) body; for a non-empty body it returns `true`
whenever the lower-cased body contains the lower-cased form of any
configured indicator (in particular the substring `"cloudfront"`
anywhere classifies the page as blocked, legitimate or not), and
`true` whenever the document's title text contains `"error"`,
`"blocked"` or `"denied"` case-insensitively. -/
theorem is_blocked_response_spec (titleOf : String → Option String)
    (body : String) :
    (body = "" →
      AntiBlockingManager.is_blocked_response titleOf body = false) ∧
    (∀ ind ∈ AntiBlockingManager.blocked_indicators, body ≠ "" →
      strContains (strLower body) (strLower ind) = true →
      AntiBlockingManager.is_blocked_response titleOf body = true) ∧
    (∀ t, body ≠ "" → titleOf body = some t →
      (strContains (strLower t) "error" ||
        strContains (strLower t) "blocked" ||
        strContains (strLower t) "denied") = true →
      AntiBlockingManager.is_blocked_response titleOf body = true) := by
  refine ⟨?_, ?_, ?_⟩
  · intro h
    rw [AntiBlockingManager.is_blocked_response, if_pos h]
  · intro ind hmem hne hc
    rw [AntiBlockingManager.is_blocked_response, if_neg hne,
      if_pos (List.any_eq_true.mpr ⟨ind, hmem, hc⟩)]
  · intro t hne ht hor
    rw [AntiBlockingManager.is_blocked_response, if_neg hne]
    cases h : AntiBlockingManager.blocked_indicators.any
        (fun ind => strContains (strLower body) (strLower ind)) with
    | true => simp
    | false =>
      rw [if_neg (by simp [h]), ht]
      exact hor

/-- Witness for `is_blocked_response_spec`: an otherwise legitimate
page mentioning cloudfront is blocked; a page whose title contains
"Error" is blocked; the empty body is not. -/
theorem is_blocked_response_spec_witness :
    AntiBlockingManager.is_blocked_response (fun _ => none)
      "<html>a perfectly normal page served via CloudFront</html>" =
        true ∧
    AntiBlockingManager.is_blocked_response
      (fun _ => some "Server Error") "<html><title>Server Error</title></html>" =
        true ∧
    AntiBlockingManager.is_blocked_response (fun _ => none) "" = false :=
  ⟨(is_blocked_response_spec (fun _ => none)
      "<html>a perfectly normal page served via CloudFront</html>").2.1
      "cloudfront" (by decide) (by decide) (by decide),
   (is_blocked_response_spec (fun _ => some "Server Error")
      "<html><title>Server Error</title></html>").2.2 "Server Error"
      (by decide) rfl (by decide),
   (is_blocked_response_spec (fun _ => none) "").1 rfl⟩

end MAScraper

